import Mathlib

/-!
Verification development for a repository holding two fragments:
MySQL handshake packet constants with a small helper (package `packets`),
and a bettercap BLE sniffing module (`ble_sniff`) that streams JSON values
from a tshark decoder and republishes BLE advertisement events.

Shallow embedding conventions: Go `interface{}` values decoded from JSON are
`GoValue`; Go maps are association lists with first-match lookup (decoded
JSON maps have unique keys); `time.Time` is a natural number with `0` as the
zero time; bytes are naturals reduced mod 256 where Go truncates.
-/

/-- Dynamic Go value as produced by the jstream JSON decoder: JSON objects
become `map[string]interface{}` (here an association list), strings stay
strings, and numbers, booleans, null and arrays keep their shape. -/
inductive GoValue where
  | str (s : String)
  | num (n : Int)
  | boolean (b : Bool)
  | null
  | arr (elems : List GoValue)
  | obj (fields : List (String × GoValue))

/-- Go map indexing `m[k]`: the value stored at key `k`, if any. -/
def lookupField : List (String × GoValue) → String → Option GoValue
  | [], _ => none
  | (k, v) :: rest, key => if k = key then some v else lookupField rest key

/-- Go type assertion `v.(map[string]interface{})` in the two-result form:
succeeds exactly when the value is an object. -/
def asObj : GoValue → Option (List (String × GoValue))
  | .obj fields => some fields
  | _ => none

/-- Go `m[k].(string)` in the two-result form: the lookup succeeds and the
stored value is a string. A missing key yields a nil interface, so the
assertion fails. -/
def lookupStr (m : List (String × GoValue)) (key : String) : Option String :=
  match lookupField m key with
  | some (.str s) => some s
  | _ => none

/-- Go `m[k].(map[string]interface{})` in the two-result form. -/
def lookupObj (m : List (String × GoValue)) (key : String) :
    Option (List (String × GoValue)) :=
  match lookupField m key with
  | some (.obj o) => some o
  | _ => none

/-- Whether a character is an ASCII hexadecimal digit, as accepted by Go's
`strconv.ParseUint` with base 16. -/
def isHexDigitChar (c : Char) : Bool :=
  (48 ≤ c.toNat && c.toNat ≤ 57) ||
  (97 ≤ c.toNat && c.toNat ≤ 102) ||
  (65 ≤ c.toNat && c.toNat ≤ 70)

/-- Numeric value of an ASCII hexadecimal digit. -/
def hexDigitVal (c : Char) : Nat :=
  if c.toNat ≤ 57 then c.toNat - 48
  else if c.toNat ≤ 70 then c.toNat - 55
  else c.toNat - 87

/-- Value of a string of hexadecimal digits, most significant first. -/
def hexVal (s : String) : Nat :=
  s.toList.foldl (fun acc c => 16 * acc + hexDigitVal c) 0

/-- Go `strconv.ParseUint(s, 16, 16)` with the error discarded, as in
`onProprietary`: a syntax error (empty string or a non-hex character, since
base 16 admits no prefix, sign or underscore) returns 0, a range error
returns the maximal 16-bit value, otherwise the parsed value. -/
def parseUint16 (s : String) : Nat :=
  if s.isEmpty || !(s.toList.all isHexDigitChar) then 0
  else min (hexVal s) 65535

/-- Whether `pat` is a prefix of the character list. -/
def isPrefixOfChars : List Char → List Char → Bool
  | [], _ => true
  | _ :: _, [] => false
  | p :: ps, c :: cs => p == c && isPrefixOfChars ps cs

/-- Fuel-driven scan of Go `strings.Replace(s, old, new, -1)`: replace every
non-overlapping occurrence of `pat` left to right, never rescanning the
replacement. The fuel is at least the length of the scanned list at every
call site, so it never runs out. -/
def replaceFuel (pat rep : List Char) : Nat → List Char → List Char
  | _, [] => []
  | 0, l => l
  | f + 1, c :: cs =>
    if isPrefixOfChars pat (c :: cs) then
      rep ++ replaceFuel pat rep f (List.drop (pat.length - 1) cs)
    else
      c :: replaceFuel pat rep f cs

/-- Go `strings.Replace(s, pat, rep, -1)`: replace all occurrences. This is
also the effect of `fmt.Sprintf(format, arg)` when `format` holds a single
`%s` verb and `arg` is a string, the only use made of Sprintf here. -/
def replaceAllStr (s pat rep : String) : String :=
  String.mk (replaceFuel pat.toList rep.toList s.toList.length s.toList)

/-- The `SnifferEvent` struct of the module: one republished sniffing event.
Times are naturals; `Data` is always a string in this module's events. -/
structure SnifferEvent where
  PacketTime : Nat
  Protocol : String
  Source : String
  Destination : String
  Message : String
  Data : String
deriving DecidableEq

/-- The `NewSnifferEvent` constructor: `Message` is
`fmt.Sprintf(format, arg)`, here modelled for the single-`%s` format used by
the module. -/
def NewSnifferEvent (t : Nat) (proto src dst : String) (data : String)
    (format arg : String) : SnifferEvent :=
  { PacketTime := t
    Protocol := proto
    Source := src
    Destination := dst
    Message := replaceAllStr format "%s" arg
    Data := data }

/-- The `onProprietary` handler: extract the advertising address, the
advertising data object, the EIR entry object, the optional data string
(defaulting to a fixed message) and the company id string; strip every
`0x` from the company id, parse it as a 16-bit hex number with the error
discarded, look the code up in the company table, and push one event.
`companyIdents` stands for the `gatt.CompanyIdents` table (a Go map lookup,
returning the empty string on a missing key); `now` is the `time.Now()`
taken at event construction. Returns the pushed event, or `none` when the
handler returns without pushing. -/
def onProprietary (companyIdents : Nat → String) (now : Nat)
    (btleData : List (String × GoValue)) : Option SnifferEvent :=
  match lookupStr btleData "btle.advertising_address" with
  | none => none
  | some advert_address =>
    match lookupObj btleData "btcommon.eir_ad.advertising_data" with
    | none => none
    | some advertising_data =>
      match lookupObj advertising_data "btcommon.eir_ad.entry" with
      | none => none
      | some eir_ad_entry =>
        let data :=
          (lookupStr eir_ad_entry "btcommon.eir_ad.entry.data").getD
            "No data could be retrieved"
        match lookupStr eir_ad_entry "btcommon.eir_ad.entry.company_id" with
        | none => none
        | some company_code_string =>
          let company_code_hex := replaceAllStr company_code_string "0x" ""
          let company_code := parseUint16 company_code_hex
          let company_name := companyIdents company_code
          some (NewSnifferEvent now "BLE ADVERT" advert_address "BROADCAST"
            data "Proprietary %s Data" company_name)

/-- The `onAdvertisement` handler: delegates directly to `onProprietary`. -/
def onAdvertisement (companyIdents : Nat → String) (now : Nat)
    (btleData : List (String × GoValue)) : Option SnifferEvent :=
  onProprietary companyIdents now btleData

/-- The `SnifferStats` struct. Times are naturals; the Go zero time is 0. -/
structure SnifferStats where
  NumAdvertisements : Nat
  NumMatched : Nat
  NumDumped : Nat
  NumWrote : Nat
  Started : Nat
  FirstPacket : Nat
  LastPacket : Nat
deriving DecidableEq

/-- The `NewSnifferStats` constructor: counters at zero (`NumWrote` is not
listed in the Go literal and takes the zero value), `Started` set to the
current time, packet times at the zero time. -/
def NewSnifferStats (now : Nat) : SnifferStats :=
  { NumAdvertisements := 0
    NumMatched := 0
    NumDumped := 0
    NumWrote := 0
    Started := now
    FirstPacket := 0
    LastPacket := 0 }

/-- The timestamp update at the top of each packet-loop iteration: record
the first packet time when it is still the zero value, and always record
the last packet time. -/
def updateTimes (stats : SnifferStats) (now : Nat) : SnifferStats :=
  let s1 := if stats.FirstPacket = 0 then { stats with FirstPacket := now }
            else stats
  { s1 with LastPacket := now }

/-- What the loop body does after processing one value: fall through to the
next iteration (`continue` or normal end of body), or abandon the loop
(`return` from the goroutine). -/
inductive LoopCtl where
  | cont
  | exit
deriving DecidableEq

/-- The body of Start's packet loop for a single streamed value: update the
packet times; extract the value as a map, the `btle` object and the
`btle.access_address` string (on the first two failures `continue`, on the
third `return`); when the access address is the advertising access address
`0x8e89bed6`, call `onAdvertisement` and increment `NumAdvertisements`;
in every surviving case increment `NumMatched`. `now` is the loop's
`time.Now()`; `evNow` the one taken inside `onProprietary`. Returns the
updated stats, the events pushed, and the loop control outcome. -/
def stepPacket (companyIdents : Nat → String) (now evNow : Nat)
    (stats : SnifferStats) (pkt : GoValue) :
    SnifferStats × List SnifferEvent × LoopCtl :=
  let stats1 := updateTimes stats now
  match asObj pkt with
  | none => (stats1, [], .cont)
  | some packet_map =>
    match lookupObj packet_map "btle" with
    | none => (stats1, [], .cont)
    | some btle_data =>
      match lookupStr btle_data "btle.access_address" with
      | none => (stats1, [], .exit)
      | some access_address =>
        let r :=
          if access_address = "0x8e89bed6" then
            ({ stats1 with NumAdvertisements := stats1.NumAdvertisements + 1 },
             (onAdvertisement companyIdents evNow btle_data).toList)
          else (stats1, [])
        ({ r.1 with NumMatched := r.1.NumMatched + 1 }, r.2, .cont)

/-- One iteration's worth of input to the consumer loop: the value of
`mod.Running()` observed at the top of the iteration, the two `time.Now()`
readings, and the streamed value received from the channel. -/
structure LoopInput where
  running : Bool
  now : Nat
  evNow : Nat
  pkt : GoValue

/-- Start's consumer loop over the decoder channel, as a function of the
finite trace of values the channel yields before closing: at each
iteration, first check `Running()` and break before touching the value if
it is false; otherwise run the body, stopping the whole loop when the body
returns. Produces the final stats and all pushed events in order. -/
def pktLoop (companyIdents : Nat → String) :
    List LoopInput → SnifferStats → SnifferStats × List SnifferEvent
  | [], stats => (stats, [])
  | inp :: rest, stats =>
    if inp.running = false then (stats, [])
    else
      match stepPacket companyIdents inp.now inp.evNow stats inp.pkt with
      | (stats1, evs, .exit) => (stats1, evs)
      | (stats1, evs, .cont) =>
        let r := pktLoop companyIdents rest stats1
        (r.1, evs ++ r.2)

/-- Whether a streamed value is a JSON object with a `btle` object whose
`btle.access_address` field is the string `0x8e89bed6`. -/
def isAdvertPacket (pkt : GoValue) : Bool :=
  match asObj pkt with
  | none => false
  | some m =>
    match lookupObj m "btle" with
    | none => false
    | some b =>
      match lookupStr b "btle.access_address" with
      | none => false
      | some a => a = "0x8e89bed6"

/-- The `btle` object of a streamed value, when present. -/
def btleOf (pkt : GoValue) : List (String × GoValue) :=
  match asObj pkt with
  | none => []
  | some m => (lookupObj m "btle").getD []

/-- The statistics invariant of the packet loop at iteration boundaries:
advertisements never outnumber matched packets, and once a first packet
time is recorded it is at most the last packet time. -/
def StatsInv (s : SnifferStats) : Prop :=
  s.NumAdvertisements ≤ s.NumMatched ∧
  (s.FirstPacket ≠ 0 → s.FirstPacket ≤ s.LastPacket)

/-- The bytes of a Go string: its UTF-8 encoding, so that `len(infile)` is
the length of this list. -/
def strBytes (s : String) : List Nat :=
  s.toUTF8.data.toList.map UInt8.toNat

/-- The `MySQLGreeting` package constant of package `packets`. -/
def MySQLGreeting : List Nat :=
  [0x5b, 0x00, 0x00, 0x00, 0x0a, 0x35, 0x2e, 0x36,
   0x2e, 0x32, 0x38, 0x2d, 0x30, 0x75, 0x62, 0x75,
   0x6e, 0x74, 0x75, 0x30, 0x2e, 0x31, 0x34, 0x2e,
   0x30, 0x34, 0x2e, 0x31, 0x00, 0x2d, 0x00, 0x00,
   0x00, 0x40, 0x3f, 0x59, 0x26, 0x4b, 0x2b, 0x34,
   0x60, 0x00, 0xff, 0xf7, 0x08, 0x02, 0x00, 0x7f,
   0x80, 0x15, 0x00, 0x00, 0x00, 0x00, 0x00, 0x00,
   0x00, 0x00, 0x00, 0x00, 0x68, 0x69, 0x59, 0x5f,
   0x52, 0x5f, 0x63, 0x55, 0x60, 0x64, 0x53, 0x52,
   0x00, 0x6d, 0x79, 0x73, 0x71, 0x6c, 0x5f, 0x6e,
   0x61, 0x74, 0x69, 0x76, 0x65, 0x5f, 0x70, 0x61,
   0x73, 0x73, 0x77, 0x6f, 0x72, 0x64, 0x00]

/-- The `MySQLFirstResponseOK` package constant. -/
def MySQLFirstResponseOK : List Nat :=
  [0x07, 0x00, 0x00, 0x02, 0x00, 0x00, 0x00, 0x02,
   0x00, 0x00, 0x00]

/-- The `MySQLSecondResponseOK` package constant. -/
def MySQLSecondResponseOK : List Nat :=
  [0x07, 0x00, 0x00, 0x04, 0x00, 0x00, 0x00, 0x02,
   0x00, 0x00, 0x00]

/-- The `MySQLGetFile` helper: a five-byte header holding
`byte(len(infile)+1)` (Go byte conversion truncates mod 256) followed by
`0x00 0x00 0x01 0xfb`, with the bytes of `infile` appended. -/
def MySQLGetFile (infile : String) : List Nat :=
  [((strBytes infile).length + 1) % 256, 0x00, 0x00, 0x01, 0xfb] ++
    strBytes infile

/-- The payload length declared by a MySQL wire packet: its first three
bytes read as a little-endian 24-bit integer. -/
def mysqlPayloadLen (p : List Nat) : Nat :=
  p.getD 0 0 + 256 * p.getD 1 0 + 65536 * p.getD 2 0

/-- The sequence number of a MySQL wire packet: its fourth byte. -/
def mysqlSeqNum (p : List Nat) : Nat :=
  p.getD 3 0

/-- A heap of Go byte arrays, indexed by allocation order. -/
structure GoHeap where
  arrays : List (List Nat)

/-- A Go byte slice: an array id with offset, length and capacity. -/
structure GoSlice where
  arr : Nat
  off : Nat
  len : Nat
  cap : Nat
deriving DecidableEq

/-- Contents of array `i`, empty for an unallocated id. -/
def readArray (h : GoHeap) (i : Nat) : List Nat :=
  h.arrays.getD i []

/-- Overwrite array `i`. -/
def writeArray (h : GoHeap) (i : Nat) (content : List Nat) : GoHeap :=
  ⟨h.arrays.set i content⟩

/-- Allocate a fresh array and return its id. -/
def allocArray (h : GoHeap) (content : List Nat) : Nat × GoHeap :=
  (h.arrays.length, ⟨h.arrays ++ [content]⟩)

/-- The bytes a slice views. -/
def sliceBytes (h : GoHeap) (s : GoSlice) : List Nat :=
  ((readArray h s.arr).drop s.off).take s.len

/-- Go `append(dst, src...)`: write in place into the backing array when the
spare capacity suffices, otherwise copy into a freshly allocated array. -/
def goAppend (h : GoHeap) (dst : GoSlice) (src : List Nat) :
    GoSlice × GoHeap :=
  if src.length ≤ dst.cap - dst.len then
    let a := readArray h dst.arr
    let a2 := a.take (dst.off + dst.len) ++ src ++
      a.drop (dst.off + dst.len + src.length)
    (⟨dst.arr, dst.off, dst.len + src.length, dst.cap⟩,
     writeArray h dst.arr a2)
  else
    let r := allocArray h (sliceBytes h dst ++ src)
    (⟨r.1, 0, dst.len + src.length, dst.len + src.length⟩, r.2)

/-- `MySQLGetFile` over the heap model: build the five-byte literal (a fresh
array with length and capacity 5) and append the bytes of `infile` to it. -/
def MySQLGetFileH (h : GoHeap) (infile : String) : GoSlice × GoHeap :=
  let hdr := [((strBytes infile).length + 1) % 256, 0x00, 0x00, 0x01, 0xfb]
  let r := allocArray h hdr
  goAppend r.2 ⟨r.1, 0, 5, 5⟩ (strBytes infile)

/-- The initial heap of package `packets`: the three package-level byte
arrays, at ids 0, 1 and 2. -/
def mysqlInitHeap : GoHeap :=
  ⟨[MySQLGreeting, MySQLFirstResponseOK, MySQLSecondResponseOK]⟩

/-- A spawned external command: program path and argument list, as passed to
`exec.CommandContext`. -/
structure GoCmd where
  prog : String
  args : List String
deriving DecidableEq

/-- Where the context's buffered reader draws from: the stdout pipe of the
spawned decoder process, or an opened source file. -/
inductive ReaderSrc where
  | fromProc (cmd : GoCmd)
  | fromFile (path : String)
deriving DecidableEq

/-- Errors the module's configuration path can return. -/
inductive GoErr where
  | paramErr (name : String)
  | pipeErr
  | startErr
  | openErr (path : String)
  | createErr (path : String)
  | alreadyStarted (moduleName : String)
deriving DecidableEq

/-- Environment of one `GetContext` run: the outcome of each `StringParam`
lookup (`none` is a parameter error) and whether each external effect
(stdout pipe creation, process start, source open, output create)
succeeds. -/
structure ModEnv where
  paramSource : Option String
  paramTshark : Option String
  paramInterface : Option String
  paramPcap : Option String
  paramOutput : Option String
  stdoutPipeOk : Bool
  startOk : Bool
  openOk : Bool
  createOk : Bool

/-- The `SnifferContext` struct. The compiled regular expression is kept as
the optional source pattern; file handles are kept as the paths they were
opened on. -/
structure SnifferContext where
  Reader : Option ReaderSrc
  TSharkProc : Option GoCmd
  TSharkRunning : Bool
  Interface : String
  Source : String
  PcapFile : String
  DumpLocal : Bool
  Verbose : Bool
  Filter : String
  Expression : String
  Compiled : Option String
  Output : String
  OutputFile : Option String
deriving DecidableEq

/-- The `NewSnifferContext` constructor: every field at its zero value. -/
def NewSnifferContext : SnifferContext :=
  { Reader := none
    TSharkProc := none
    TSharkRunning := false
    Interface := ""
    Source := ""
    PcapFile := ""
    DumpLocal := false
    Verbose := false
    Filter := ""
    Expression := ""
    Compiled := none
    Output := ""
    OutputFile := none }

/-- Observable external effects of a `GetContext` run: whether
`TSharkProc.Start()` was attempted, which file `os.Open` opened, and which
file `os.Create` created. -/
structure CtxEffects where
  startAttempted : Bool
  openedFile : Option String
  createdFile : Option String
deriving DecidableEq

/-- Tail of `GetContext` after the reader is set up: retrieve the
`ble.sniff.output` parameter and, when non-empty, create the output file. -/
def getContextOutput (env : ModEnv) (ctx : SnifferContext)
    (effs : CtxEffects) : Option GoErr × SnifferContext × CtxEffects :=
  match env.paramOutput with
  | none => (some (.paramErr "ble.sniff.output"), ctx, effs)
  | some out =>
    let ctx2 := { ctx with Output := out }
    if out = "" then (none, ctx2, effs)
    else if env.createOk = false then (some (.createErr out), ctx2, effs)
    else (none, { ctx2 with OutputFile := some out },
      { effs with createdFile := some out })

/-- The `GetContext` method: read the source parameter; with an empty source
build the tshark command (live-interface arguments without a pcap file,
read-file arguments with one), create its stdout pipe, start it and read
from the pipe; with a non-empty source open that file and read from it;
finally handle the output parameter. Mirrors the Go control flow, returning
the error, the context, and the external effects. -/
def GetContext (env : ModEnv) : Option GoErr × SnifferContext × CtxEffects :=
  let ctx := NewSnifferContext
  let effs : CtxEffects := ⟨false, none, none⟩
  match env.paramSource with
  | none => (some (.paramErr "ble.sniff.source"), ctx, effs)
  | some src =>
    let ctx := { ctx with Source := src }
    if src = "" then
      match env.paramTshark with
      | none => (some (.paramErr "ble.sniff.tshark"), ctx, effs)
      | some tshark =>
        match env.paramInterface with
        | none => (some (.paramErr "ble.sniff.interface"), ctx, effs)
        | some iface =>
          let ctx := { ctx with Interface := iface }
          match env.paramPcap with
          | none => (some (.paramErr "ble.sniff.pcap"), ctx, effs)
          | some pcap =>
            let ctx := { ctx with PcapFile := pcap }
            let cmd : GoCmd :=
              if pcap = "" then ⟨tshark, ["-i", iface, "-T", "json"]⟩
              else ⟨tshark, ["-T", "json", "-r", pcap]⟩
            let ctx := { ctx with TSharkProc := some cmd }
            if env.stdoutPipeOk = false then (some .pipeErr, ctx, effs)
            else
              let effs := { effs with startAttempted := true }
              if env.startOk = false then (some .startErr, ctx, effs)
              else
                let ctx :=
                  { ctx with
                    TSharkRunning := true
                    Reader := some (.fromProc cmd) }
                getContextOutput env ctx effs
    else
      if env.openOk = false then (some (.openErr src), ctx, effs)
      else
        let effs := { effs with openedFile := some src }
        let ctx := { ctx with Reader := some (.fromFile src) }
        getContextOutput env ctx effs

/-- The `Close` method on a context: kill the decoder process if one runs
(an external effect) and close and clear the output file handle. -/
def SnifferContext.Close (c : SnifferContext) : SnifferContext :=
  { c with OutputFile := none }

/-- Module state relevant to `Configure`: the running flag of the session
module and the context pointer (`none` is the nil pointer). -/
structure ModState where
  running : Bool
  Ctx : Option SnifferContext
deriving DecidableEq

/-- The `Configure` method: when already running, return `ErrAlreadyStarted`
untouched; otherwise assign the result of `GetContext` to `mod.Ctx` and, on
error, close the (always non-nil) partially-built context and null the
pointer before propagating the error. The third component records the
context `Close` was invoked on, when it was. -/
def Configure (env : ModEnv) (m : ModState) :
    Option GoErr × ModState × Option SnifferContext :=
  if m.running then (some (.alreadyStarted "ble.sniff"), m, none)
  else
    match GetContext env with
    | (some e, ctx, _) => (some e, { m with Ctx := none }, some ctx)
    | (none, ctx, _) => (none, { m with Ctx := some ctx }, none)

/-- Concrete company table used in concrete evaluations: every code maps to
the same name. -/
def wCompanyIdents : Nat → String := fun _ => "ACME"

/-- A concrete fully-formed advertisement value: a JSON object whose `btle`
object carries the advertising access address, an advertising address, and
an EIR entry with company id and data. -/
def wPktAdvert : GoValue :=
  GoValue.obj [("btle", GoValue.obj [
    ("btle.access_address", GoValue.str "0x8e89bed6"),
    ("btle.advertising_address", GoValue.str "aa:bb:cc:dd:ee:ff"),
    ("btcommon.eir_ad.advertising_data", GoValue.obj [
      ("btcommon.eir_ad.entry", GoValue.obj [
        ("btcommon.eir_ad.entry.company_id", GoValue.str "0x004c"),
        ("btcommon.eir_ad.entry.data", GoValue.str "cafe")])])])]

/-- A concrete value that is a JSON object with a `btle` object but no
`btle.access_address` field. -/
def wPktNoAddr : GoValue :=
  GoValue.obj [("btle", GoValue.obj [])]

/-- The `btle` object of `wPktAdvert`. -/
def wBtleData : List (String × GoValue) :=
  [("btle.access_address", GoValue.str "0x8e89bed6"),
   ("btle.advertising_address", GoValue.str "aa:bb:cc:dd:ee:ff"),
   ("btcommon.eir_ad.advertising_data", GoValue.obj [
     ("btcommon.eir_ad.entry", GoValue.obj [
       ("btcommon.eir_ad.entry.company_id", GoValue.str "0x004c"),
       ("btcommon.eir_ad.entry.data", GoValue.str "cafe")])])]

/-- The event `onProprietary` pushes for `wBtleData` at time 6. -/
def wEvent : SnifferEvent :=
  { PacketTime := 6
    Protocol := "BLE ADVERT"
    Source := "aa:bb:cc:dd:ee:ff"
    Destination := "BROADCAST"
    Message := "Proprietary ACME Data"
    Data := "cafe" }

/-- A concrete environment reading from a source file. -/
def wEnvFile : ModEnv :=
  { paramSource := some "cap.json"
    paramTshark := some "tshark"
    paramInterface := some "nRF Sniffer for Bluetooth LE"
    paramPcap := some ""
    paramOutput := some ""
    stdoutPipeOk := true
    startOk := true
    openOk := true
    createOk := true }

/-- A concrete environment whose very first parameter lookup fails. -/
def wEnvErr : ModEnv :=
  { paramSource := none
    paramTshark := none
    paramInterface := none
    paramPcap := none
    paramOutput := none
    stdoutPipeOk := false
    startOk := false
    openOk := false
    createOk := false }

/-- A concrete idle module state: not running, nil context. -/
def wModIdle : ModState :=
  { running := false, Ctx := none }


/-! ## Helper lemmas -/

/-- Sprintf of the module's only format: substituting the single `%s` verb
yields the concatenation, for every argument. -/
theorem sprintf_proprietary (name : String) :
    replaceAllStr "Proprietary %s Data" "%s" name =
      "Proprietary " ++ name ++ " Data" := rfl

/-- Projections of the timestamp update: counters are untouched, the first
packet time is written only from the zero time, the last packet time is
always written. -/
theorem updateTimes_spec (stats : SnifferStats) (now : Nat) :
    (updateTimes stats now).NumAdvertisements = stats.NumAdvertisements ∧
    (updateTimes stats now).NumMatched = stats.NumMatched ∧
    (updateTimes stats now).FirstPacket =
      (if stats.FirstPacket = 0 then now else stats.FirstPacket) ∧
    (updateTimes stats now).LastPacket = now := by
  unfold updateTimes
  split <;> simp_all

/-- Reading a freshly appended heap does not change entries below the old
length. -/
theorem getD_append_lt (l1 : List (List Nat)) (c : List Nat) (j : Nat)
    (h : j < l1.length) : (l1 ++ [c]).getD j [] = l1.getD j [] := by
  induction l1 generalizing j with
  | nil => simp at h
  | cons a l ih =>
    cases j with
    | zero => rfl
    | succ j => simpa using ih j (by simpa using h)

/-- Overwriting one heap entry does not change the others. -/
theorem getD_set_ne (l : List (List Nat)) (i j : Nat) (c : List Nat)
    (h : i ≠ j) : (l.set i c).getD j [] = l.getD j [] := by
  induction l generalizing i j with
  | nil => rfl
  | cons a l ih =>
    cases i with
    | zero =>
      cases j with
      | zero => exact absurd rfl h
      | succ j => rfl
    | succ i =>
      cases j with
      | zero => rfl
      | succ j => simpa using ih i j (by omega)

/-! ## Claim theorems -/

/-- Claim C3: `MySQLGetFile infile` is the byte slice of length
`len(infile) + 5` whose first byte is `(len(infile) + 1) mod 256`, whose
next four bytes are `0x00 0x00 0x01 0xfb`, and whose remaining bytes are
the bytes of `infile`; the function is deterministic. -/
theorem MySQLGetFile_spec (s t : String) (h : s = t) :
    (MySQLGetFile s).length = (strBytes s).length + 5 ∧
    (MySQLGetFile s).take 1 = [((strBytes s).length + 1) % 256] ∧
    ((MySQLGetFile s).drop 1).take 4 = [0x00, 0x00, 0x01, 0xfb] ∧
    (MySQLGetFile s).drop 5 = strBytes s ∧
    MySQLGetFile s = MySQLGetFile t := by
  subst h
  refine ⟨?_, rfl, rfl, rfl, rfl⟩
  simp [MySQLGetFile]

/-- Witness for C3 at the concrete input `"ab"`. -/
theorem MySQLGetFile_spec_witness :
    ("ab" : String) = "ab" ∧
    ((MySQLGetFile "ab").length = (strBytes "ab").length + 5 ∧
     (MySQLGetFile "ab").take 1 = [((strBytes "ab").length + 1) % 256] ∧
     ((MySQLGetFile "ab").drop 1).take 4 = [0x00, 0x00, 0x01, 0xfb] ∧
     (MySQLGetFile "ab").drop 5 = strBytes "ab" ∧
     MySQLGetFile "ab" = MySQLGetFile "ab") :=
  ⟨rfl, MySQLGetFile_spec "ab" "ab" rfl⟩

/-- Claim C4: the three hard-coded constants are well-formed MySQL wire
packets: the 3-byte little-endian length prefix matches the bytes after the
4-byte header, with the stated lengths, sequence numbers and shared OK
payload. -/
theorem mysqlConstants_wellFormed :
    MySQLGreeting.length = 95 ∧
    mysqlPayloadLen MySQLGreeting = 91 ∧
    MySQLGreeting.length = 4 + mysqlPayloadLen MySQLGreeting ∧
    mysqlSeqNum MySQLGreeting = 0 ∧
    MySQLFirstResponseOK.length = 11 ∧
    mysqlPayloadLen MySQLFirstResponseOK = 7 ∧
    MySQLFirstResponseOK.length = 4 + mysqlPayloadLen MySQLFirstResponseOK ∧
    mysqlSeqNum MySQLFirstResponseOK = 2 ∧
    MySQLSecondResponseOK.length = 11 ∧
    mysqlPayloadLen MySQLSecondResponseOK = 7 ∧
    MySQLSecondResponseOK.length = 4 + mysqlPayloadLen MySQLSecondResponseOK ∧
    mysqlSeqNum MySQLSecondResponseOK = 4 ∧
    MySQLFirstResponseOK.drop 4 = [0x00, 0x00, 0x00, 0x02, 0x00, 0x00, 0x00] ∧
    MySQLSecondResponseOK.drop 4 = [0x00, 0x00, 0x00, 0x02, 0x00, 0x00, 0x00] := by
  decide

/-- Claim C8: calling `MySQLGetFile` never mutates a pre-existing heap
array; in particular the three package-level byte arrays are unchanged. -/
theorem MySQLGetFile_frame :
    (∀ (h : GoHeap) (s : String) (j : Nat), j < h.arrays.length →
      readArray (MySQLGetFileH h s).2 j = readArray h j) ∧
    (∀ s : String,
      readArray (MySQLGetFileH mysqlInitHeap s).2 0 = MySQLGreeting ∧
      readArray (MySQLGetFileH mysqlInitHeap s).2 1 = MySQLFirstResponseOK ∧
      readArray (MySQLGetFileH mysqlInitHeap s).2 2 = MySQLSecondResponseOK) := by
  have main : ∀ (h : GoHeap) (s : String) (j : Nat), j < h.arrays.length →
      readArray (MySQLGetFileH h s).2 j = readArray h j := by
    intro h s j hj
    simp only [MySQLGetFileH, goAppend, allocArray, writeArray, readArray,
      sliceBytes]
    split
    · rw [getD_set_ne _ _ _ _ (by omega), getD_append_lt _ _ _ hj]
    · rw [getD_append_lt _ _ _ (by simp; omega), getD_append_lt _ _ _ hj]
  refine ⟨main, fun s => ⟨?_, ?_, ?_⟩⟩
  · rw [main mysqlInitHeap s 0 (by decide)]; rfl
  · rw [main mysqlInitHeap s 1 (by decide)]; rfl
  · rw [main mysqlInitHeap s 2 (by decide)]; rfl

/-- Witness for C8 at the package heap, input `"a"`, array 0. -/
theorem MySQLGetFile_frame_witness :
    0 < mysqlInitHeap.arrays.length ∧
    readArray (MySQLGetFileH mysqlInitHeap "a").2 0 = readArray mysqlInitHeap 0 :=
  ⟨by decide, MySQLGetFile_frame.1 mysqlInitHeap "a" 0 (by decide)⟩

/-- Claim C1: the packet loop body republishes a BLE advertisement event
(invokes `onAdvertisement` on the `btle` object and increments
`NumAdvertisements` by exactly one) if and only if the streamed value is a
JSON object with a `btle` object whose `btle.access_address` is the string
`0x8e89bed6`; for every other value no event is republished. -/
theorem stepPacket_republish_iff (ci : Nat → String) (now evNow : Nat)
    (stats : SnifferStats) (pkt : GoValue) :
    (isAdvertPacket pkt = true →
      (stepPacket ci now evNow stats pkt).1.NumAdvertisements =
        stats.NumAdvertisements + 1 ∧
      (stepPacket ci now evNow stats pkt).2.1 =
        (onAdvertisement ci evNow (btleOf pkt)).toList) ∧
    (isAdvertPacket pkt = false →
      (stepPacket ci now evNow stats pkt).1.NumAdvertisements =
        stats.NumAdvertisements ∧
      (stepPacket ci now evNow stats pkt).2.1 = []) := by
  have hcnt := (updateTimes_spec stats now).1
  unfold stepPacket isAdvertPacket btleOf
  cases h1 : asObj pkt with
  | none => simp [hcnt]
  | some m =>
    cases h2 : lookupObj m "btle" with
    | none => simp [h2, hcnt]
    | some b =>
      cases h3 : lookupStr b "btle.access_address" with
      | none => simp [h2, h3, hcnt]
      | some a =>
        by_cases hx : a = "0x8e89bed6" <;>
          simp [h2, h3, hx, hcnt, onAdvertisement]

/-- Witness for C1 at a concrete matching advertisement value. -/
theorem stepPacket_republish_iff_witness :
    isAdvertPacket wPktAdvert = true ∧
    ((stepPacket wCompanyIdents 5 6 (NewSnifferStats 1) wPktAdvert).1.NumAdvertisements =
      (NewSnifferStats 1).NumAdvertisements + 1 ∧
     (stepPacket wCompanyIdents 5 6 (NewSnifferStats 1) wPktAdvert).2.1 =
      (onAdvertisement wCompanyIdents 6 (btleOf wPktAdvert)).toList) :=
  ⟨by decide,
   (stepPacket_republish_iff wCompanyIdents 5 6 (NewSnifferStats 1)
     wPktAdvert).1 (by decide)⟩

/-- Counterexample to C2 as stated: a streamed value that is an object with
a `btle` object but no `btle.access_address` string makes the loop body
return (`LoopCtl.exit`), and the consumer loop then ignores a following
fully-formed value instead of continuing with it. -/
theorem stepPacket_continue_counterexample :
    (stepPacket wCompanyIdents 1 1 (NewSnifferStats 0) wPktNoAddr).2.2 =
      LoopCtl.exit ∧
    LoopCtl.exit ≠ LoopCtl.cont ∧
    pktLoop wCompanyIdents
      [⟨true, 1, 1, wPktNoAddr⟩, ⟨true, 2, 2, wPktAdvert⟩]
      (NewSnifferStats 0) =
      (updateTimes (NewSnifferStats 0) 1, []) := by
  decide

/-- Claim C2 as amended: a value that is not an object, or whose `btle`
field is not an object, is skipped and the loop continues; but a value
whose `btle` object has no string `btle.access_address` makes the loop body
return, terminating the consumer loop. -/
theorem stepPacket_skip_or_exit (ci : Nat → String) (now evNow : Nat)
    (stats : SnifferStats) (pkt : GoValue) :
    (asObj pkt = none →
      stepPacket ci now evNow stats pkt =
        (updateTimes stats now, [], LoopCtl.cont)) ∧
    (∀ m, asObj pkt = some m → lookupObj m "btle" = none →
      stepPacket ci now evNow stats pkt =
        (updateTimes stats now, [], LoopCtl.cont)) ∧
    (∀ m b, asObj pkt = some m → lookupObj m "btle" = some b →
      lookupStr b "btle.access_address" = none →
      stepPacket ci now evNow stats pkt =
        (updateTimes stats now, [], LoopCtl.exit)) := by
  refine ⟨fun h1 => ?_, fun m h1 h2 => ?_, fun m b h1 h2 h3 => ?_⟩
  · unfold stepPacket
    simp [h1]
  · unfold stepPacket
    simp [h1, h2]
  · unfold stepPacket
    simp [h1, h2, h3]

/-- Witness for the amended C2 at the concrete no-address value. -/
theorem stepPacket_skip_or_exit_witness :
    asObj wPktNoAddr = some [("btle", GoValue.obj [])] ∧
    lookupObj [("btle", GoValue.obj [])] "btle" = some [] ∧
    lookupStr [] "btle.access_address" = none ∧
    stepPacket wCompanyIdents 1 1 (NewSnifferStats 0) wPktNoAddr =
      (updateTimes (NewSnifferStats 0) 1, [], LoopCtl.exit) :=
  ⟨rfl, rfl, rfl,
   (stepPacket_skip_or_exit wCompanyIdents 1 1 (NewSnifferStats 0)
     wPktNoAddr).2.2 _ _ rfl rfl rfl⟩

/-- Claim C7: the consumer loop ends when the channel closes, exits before
touching the value when `Running()` is false at the top of an iteration,
and its result never depends on a value observed at or after a stopped
iteration. -/
theorem pktLoop_stop_spec (ci : Nat → String) :
    (∀ stats, pktLoop ci [] stats = (stats, [])) ∧
    (∀ n e p rest stats,
      pktLoop ci (⟨false, n, e, p⟩ :: rest) stats = (stats, [])) ∧
    (∀ pre n e p post n2 e2 p2 post2 stats,
      pktLoop ci (pre ++ ⟨false, n, e, p⟩ :: post) stats =
        pktLoop ci (pre ++ ⟨false, n2, e2, p2⟩ :: post2) stats) := by
  refine ⟨fun stats => rfl, fun n e p rest stats => rfl, ?_⟩
  intro pre n e p post n2 e2 p2 post2 stats
  induction pre generalizing stats with
  | nil => rfl
  | cons i pre ih =>
    simp only [List.cons_append, pktLoop]
    by_cases hr : i.running = false
    · simp [hr]
    · simp only [hr, if_false]
      rcases h : stepPacket ci i.now i.evNow stats i.pkt with ⟨s1, evs, ctl⟩
      cases ctl with
      | exit => rfl
      | cont => simp [ih]

/-- Claim C9: the loop statistics invariant (advertisements at most matched
packets, first packet time at most last packet time once set) holds after
initialization and is preserved by every loop body step, given that the
clock readings do not decrease (Go's monotonic clock); the first packet
time is written only when it is still the zero time. -/
theorem statsInv_preserved (t : Nat) (ci : Nat → String) (now evNow : Nat)
    (stats : SnifferStats) (pkt : GoValue)
    (hInv : StatsInv stats) (hMono : stats.LastPacket ≤ now) :
    StatsInv (NewSnifferStats t) ∧
    (stepPacket ci now evNow stats pkt).1.FirstPacket =
      (if stats.FirstPacket = 0 then now else stats.FirstPacket) ∧
    (stepPacket ci now evNow stats pkt).1.LastPacket = now ∧
    StatsInv (stepPacket ci now evNow stats pkt).1 := by
  obtain ⟨hAdv, hMat, hFP, hLP⟩ := updateTimes_spec stats now
  have hInvU : StatsInv (updateTimes stats now) := by
    refine ⟨by rw [hAdv, hMat]; exact hInv.1, ?_⟩
    rw [hFP, hLP]
    split
    · exact fun _ => le_refl now
    · exact fun h => le_trans (hInv.2 h) hMono
  refine ⟨by simp [StatsInv, NewSnifferStats], ?_⟩
  have hU1 := hInvU.1
  have hU2 := hInvU.2
  unfold stepPacket
  cases h1 : asObj pkt with
  | none => simpa using ⟨hFP, hLP, hInvU⟩
  | some m =>
    cases h2 : lookupObj m "btle" with
    | none => simpa [h2] using ⟨hFP, hLP, hInvU⟩
    | some b =>
      cases h3 : lookupStr b "btle.access_address" with
      | none => simpa [h2, h3] using ⟨hFP, hLP, hInvU⟩
      | some a =>
        by_cases hx : a = "0x8e89bed6" <;>
          simp only [h2, h3, hx, if_true, if_false, StatsInv] <;>
          refine ⟨?_, ?_, ?_, ?_⟩ <;>
          omega

/-- Witness for C9 at fresh statistics and the concrete advertisement. -/
theorem statsInv_preserved_witness :
    StatsInv (NewSnifferStats 1) ∧ (NewSnifferStats 1).LastPacket ≤ 5 ∧
    (StatsInv (NewSnifferStats 7) ∧
     (stepPacket wCompanyIdents 5 6 (NewSnifferStats 1) wPktAdvert).1.FirstPacket =
       (if (NewSnifferStats 1).FirstPacket = 0 then 5
        else (NewSnifferStats 1).FirstPacket) ∧
     (stepPacket wCompanyIdents 5 6 (NewSnifferStats 1) wPktAdvert).1.LastPacket = 5 ∧
     StatsInv (stepPacket wCompanyIdents 5 6 (NewSnifferStats 1) wPktAdvert).1) :=
  ⟨⟨Nat.le_refl 0, fun h => absurd rfl h⟩, by decide,
   statsInv_preserved 7 wCompanyIdents 5 6 (NewSnifferStats 1) wPktAdvert
     ⟨Nat.le_refl 0, fun h => absurd rfl h⟩ (by decide)⟩

/-- Claim C6: every event pushed by `onProprietary` has protocol
`BLE ADVERT`, destination `BROADCAST`, source equal to the packet's
advertising address, and a message built from the company-identifier lookup
of the company id with every `0x` stripped; a missing data field yields the
fixed default data string; and no event is pushed when the advertising
address, the advertising data object, the EIR entry object, or the company
id string is absent. -/
theorem onProprietary_event_shape (ci : Nat → String) (now : Nat)
    (btleData : List (String × GoValue)) :
    (∀ ev, onProprietary ci now btleData = some ev →
      ev.PacketTime = now ∧
      ev.Protocol = "BLE ADVERT" ∧
      ev.Destination = "BROADCAST" ∧
      lookupStr btleData "btle.advertising_address" = some ev.Source ∧
      ∃ ad e cid,
        lookupObj btleData "btcommon.eir_ad.advertising_data" = some ad ∧
        lookupObj ad "btcommon.eir_ad.entry" = some e ∧
        lookupStr e "btcommon.eir_ad.entry.company_id" = some cid ∧
        ev.Message =
          "Proprietary " ++ ci (parseUint16 (replaceAllStr cid "0x" "")) ++
            " Data" ∧
        (lookupStr e "btcommon.eir_ad.entry.data" = none →
          ev.Data = "No data could be retrieved") ∧
        (∀ d, lookupStr e "btcommon.eir_ad.entry.data" = some d →
          ev.Data = d)) ∧
    (lookupStr btleData "btle.advertising_address" = none →
      onProprietary ci now btleData = none) ∧
    (lookupObj btleData "btcommon.eir_ad.advertising_data" = none →
      onProprietary ci now btleData = none) ∧
    (∀ ad, lookupObj btleData "btcommon.eir_ad.advertising_data" = some ad →
      lookupObj ad "btcommon.eir_ad.entry" = none →
      onProprietary ci now btleData = none) ∧
    (∀ ad e, lookupObj btleData "btcommon.eir_ad.advertising_data" = some ad →
      lookupObj ad "btcommon.eir_ad.entry" = some e →
      lookupStr e "btcommon.eir_ad.entry.company_id" = none →
      onProprietary ci now btleData = none) := by
  unfold onProprietary
  cases h1 : lookupStr btleData "btle.advertising_address" with
  | none => simp
  | some addr =>
    cases h2 : lookupObj btleData "btcommon.eir_ad.advertising_data" with
    | none => simp
    | some ad =>
      cases h3 : lookupObj ad "btcommon.eir_ad.entry" with
      | none => simp [h3]
      | some e =>
        cases h4 : lookupStr e "btcommon.eir_ad.entry.company_id" with
        | none => simp [h3, h4]
        | some cid =>
          refine ⟨?_, by simp, by simp, by simp [h3, h4], ?_⟩
          · intro ev hev
            simp only [h3, h4] at hev
            rw [Option.some_inj] at hev
            subst hev
            refine ⟨rfl, rfl, rfl, rfl, ad, e, cid, rfl, h3, h4,
              sprintf_proprietary _, fun hd => ?_, fun d hd => ?_⟩
            · show (lookupStr e "btcommon.eir_ad.entry.data").getD _ = _
              rw [hd]
              rfl
            · show (lookupStr e "btcommon.eir_ad.entry.data").getD _ = _
              rw [hd]
              rfl
          · intro ad1 e1 had he1 hc
            rw [Option.some_inj] at had
            subst had
            rw [h3, Option.some_inj] at he1
            subst he1
            simp [h4] at hc

/-- Witness for C6 at the concrete advertisement data and its event. -/
theorem onProprietary_event_shape_witness :
    onProprietary wCompanyIdents 6 wBtleData = some wEvent ∧
    (wEvent.PacketTime = 6 ∧
     wEvent.Protocol = "BLE ADVERT" ∧
     wEvent.Destination = "BROADCAST" ∧
     lookupStr wBtleData "btle.advertising_address" = some wEvent.Source ∧
     ∃ ad e cid,
       lookupObj wBtleData "btcommon.eir_ad.advertising_data" = some ad ∧
       lookupObj ad "btcommon.eir_ad.entry" = some e ∧
       lookupStr e "btcommon.eir_ad.entry.company_id" = some cid ∧
       wEvent.Message =
         "Proprietary " ++
           wCompanyIdents (parseUint16 (replaceAllStr cid "0x" "")) ++
           " Data" ∧
       (lookupStr e "btcommon.eir_ad.entry.data" = none →
         wEvent.Data = "No data could be retrieved") ∧
       (∀ d, lookupStr e "btcommon.eir_ad.entry.data" = some d →
         wEvent.Data = d)) :=
  ⟨by decide,
   (onProprietary_event_shape wCompanyIdents 6 wBtleData).1 wEvent (by decide)⟩

/-- Projections through the output-file tail of `GetContext`: it never
touches the tshark fields, the reader, or the start and open effects. -/
theorem getContextOutput_fields (env : ModEnv) (ctx : SnifferContext)
    (effs : CtxEffects) :
    (getContextOutput env ctx effs).2.1.TSharkRunning = ctx.TSharkRunning ∧
    (getContextOutput env ctx effs).2.1.TSharkProc = ctx.TSharkProc ∧
    (getContextOutput env ctx effs).2.1.Reader = ctx.Reader ∧
    (getContextOutput env ctx effs).2.2.startAttempted = effs.startAttempted ∧
    (getContextOutput env ctx effs).2.2.openedFile = effs.openedFile := by
  unfold getContextOutput
  cases env.paramOutput with
  | none => simp
  | some out =>
    by_cases h : out = ""
    · simp [h]
    · simp only [h, if_false]
      cases hc : env.createOk <;> simp [hc]

/-- Claim C5: `GetContext` attempts to start tshark only when the
`ble.sniff.source` parameter is the empty string; with a non-empty source
it opens that file, reads from it, builds no command and starts nothing,
leaving `TSharkRunning` false; and when tshark is used its arguments are
`-i <interface> -T json` without a pcap file and `-T json -r <pcap>` with
one. -/
theorem GetContext_tshark_spec (env : ModEnv) :
    ((GetContext env).2.1.TSharkRunning = true → env.paramSource = some "") ∧
    ((GetContext env).2.2.startAttempted = true → env.paramSource = some "") ∧
    (∀ s, env.paramSource = some s → s ≠ "" →
      (GetContext env).2.2.startAttempted = false ∧
      (GetContext env).2.1.TSharkRunning = false ∧
      (GetContext env).2.1.TSharkProc = none ∧
      (env.openOk = true →
        (GetContext env).2.1.Reader = some (.fromFile s) ∧
        (GetContext env).2.2.openedFile = some s)) ∧
    (∀ ts iface pcap, env.paramSource = some "" → env.paramTshark = some ts →
      env.paramInterface = some iface → env.paramPcap = some pcap →
      (GetContext env).2.1.TSharkProc =
        some (if pcap = "" then ⟨ts, ["-i", iface, "-T", "json"]⟩
              else ⟨ts, ["-T", "json", "-r", pcap]⟩) ∧
      (env.stdoutPipeOk = true → env.startOk = true →
        (GetContext env).2.1.TSharkRunning = true ∧
        (GetContext env).2.1.Reader =
          some (.fromProc (if pcap = "" then ⟨ts, ["-i", iface, "-T", "json"]⟩
                else ⟨ts, ["-T", "json", "-r", pcap]⟩)))) := by
  have gf1 := fun ctx effs => (getContextOutput_fields env ctx effs).1
  have gf2 := fun ctx effs => (getContextOutput_fields env ctx effs).2.1
  have gf3 := fun ctx effs => (getContextOutput_fields env ctx effs).2.2.1
  have gf4 := fun ctx effs => (getContextOutput_fields env ctx effs).2.2.2.1
  have gf5 := fun ctx effs => (getContextOutput_fields env ctx effs).2.2.2.2
  unfold GetContext
  cases hs : env.paramSource with
  | none => simp [hs, NewSnifferContext]
  | some src =>
    by_cases hsrc : src = ""
    · subst hsrc
      simp only [if_true, reduceIte]
      refine ⟨by simp, by simp, ?_, ?_⟩
      · intro s hs2 hne
        rw [Option.some_inj] at hs2
        exact absurd hs2.symm hne
      · intro ts iface pcap _ ht hi hp
        rw [ht, hi, hp]
        cases hpo : env.stdoutPipeOk with
        | false => simp [hpo]
        | true =>
          cases hso : env.startOk with
          | false => simp [hso]
          | true => simp [hso, gf1, gf2, gf3]
    · simp only [hsrc, if_false]
      refine ⟨?_, ?_, ?_, ?_⟩
      · cases ho : env.openOk with
        | false => simp [ho, NewSnifferContext]
        | true => simp [ho, gf1, NewSnifferContext]
      · cases ho : env.openOk with
        | false => simp [ho]
        | true => simp [ho, gf4]
      · intro s hs2 hne
        rw [Option.some_inj] at hs2
        subst hs2
        cases ho : env.openOk with
        | false => simp [ho, NewSnifferContext]
        | true => simp [ho, gf1, gf2, gf3, gf4, gf5, NewSnifferContext]
      · intro ts iface pcap hcontra
        rw [Option.some_inj] at hcontra
        exact absurd hcontra hsrc

/-- Witness for C5 at a concrete non-empty source environment. -/
theorem GetContext_tshark_spec_witness :
    wEnvFile.paramSource = some "cap.json" ∧ ("cap.json" : String) ≠ "" ∧
    ((GetContext wEnvFile).2.2.startAttempted = false ∧
     (GetContext wEnvFile).2.1.TSharkRunning = false ∧
     (GetContext wEnvFile).2.1.TSharkProc = none ∧
     (wEnvFile.openOk = true →
       (GetContext wEnvFile).2.1.Reader =
         some (ReaderSrc.fromFile "cap.json") ∧
       (GetContext wEnvFile).2.2.openedFile = some "cap.json")) :=
  ⟨rfl, by decide,
   (GetContext_tshark_spec wEnvFile).2.2.1 "cap.json" rfl (by decide)⟩

/-- Claim C10: `Configure` returns `ErrAlreadyStarted` without modifying
the module when it is already running; when `GetContext` returns an error
it closes the partially-built context and leaves the context pointer nil
before propagating the error; and it returns nil only when a context was
successfully obtained and stored. -/
theorem Configure_spec (env : ModEnv) (m : ModState) :
    (m.running = true →
      Configure env m = (some (.alreadyStarted "ble.sniff"), m, none)) ∧
    (m.running = false → ∀ e ctx effs, GetContext env = (some e, ctx, effs) →
      Configure env m = (some e, { m with Ctx := none }, some ctx)) ∧
    (m.running = false → ∀ ctx effs, GetContext env = (none, ctx, effs) →
      Configure env m = (none, { m with Ctx := some ctx }, none)) ∧
    ((Configure env m).1 = none →
      ∃ ctx effs, GetContext env = (none, ctx, effs) ∧
        (Configure env m).2.1.Ctx = some ctx) := by
  unfold Configure
  cases hr : m.running with
  | true =>
    refine ⟨fun _ => rfl, by simp, by simp, ?_⟩
    intro h
    simp at h
  | false =>
    rcases hg : GetContext env with ⟨err, ctx, effs⟩
    simp only [hg]
    cases err with
    | some e =>
      refine ⟨by simp, ?_, by simp, by simp⟩
      intro _ e2 ctx2 effs2 hg2
      rw [Prod.mk.injEq, Prod.mk.injEq] at hg2
      obtain ⟨he, hc, hf⟩ := hg2
      rw [Option.some_inj] at he
      subst he
      subst hc
      rfl
    | none =>
      refine ⟨by simp, by simp, ?_, ?_⟩
      · intro _ ctx2 effs2 hg2
        rw [Prod.mk.injEq, Prod.mk.injEq] at hg2
        obtain ⟨he, hc, hf⟩ := hg2
        subst hc
        rfl
      · intro _
        exact ⟨ctx, effs, rfl, rfl⟩

/-- Witness for C10 at an idle module and an environment whose first
parameter lookup fails. -/
theorem Configure_spec_witness :
    wModIdle.running = false ∧
    GetContext wEnvErr =
      (some (GoErr.paramErr "ble.sniff.source"), NewSnifferContext,
        ⟨false, none, none⟩) ∧
    Configure wEnvErr wModIdle =
      (some (GoErr.paramErr "ble.sniff.source"),
       { wModIdle with Ctx := none }, some NewSnifferContext) :=
  ⟨rfl, rfl,
   (Configure_spec wEnvErr wModIdle).2.1 rfl
     (GoErr.paramErr "ble.sniff.source") NewSnifferContext
     ⟨false, none, none⟩ rfl⟩
